import Mathlib

/-!
Shallow embedding of the request/response pipeline of the pyosu library
(files `pyosu/http.py` and `pyosu/beatmap_file.py`), together with proofs
of the behavioural properties stated about it.

Python values appearing in JSON bodies are modelled by the inductive `Json`;
Python exceptions raised by this code are modelled by `PyErr`; fallible
operations return `Except PyErr _`.  Route parameter values are modelled by
their string form (the code only ever interpolates `str(value)`).
-/

set_option autoImplicit false

namespace Pyosu

/-- JSON values as produced by Python's `json.loads`: objects are modelled as
association lists preserving insertion order (Python dicts have unique keys
and preserve insertion order). -/
inductive Json where
  | null
  | bool (b : Bool)
  | num (n : Int)
  | str (s : String)
  | arr (elems : List Json)
  | obj (fields : List (String × Json))

/-- Modelled from the spec: the error taxonomy of `pyosu/exceptions.py` (that
file is not under `src/`; spec section 7 lists what each exception carries),
plus the builtin Python exceptions this code can let escape
(`TypeError` from subscripting a non-dict, `ValueError` from `int('')`,
`AttributeError` from `None.group`, `json.JSONDecodeError` from `loads`). -/
inductive PyErr where
  | invalidArgument (key : String)
  | wrongApiKey (msg : Json)
  | routeNotFound (msg : String) (status : Nat)
  | httpError (status : Nat) (msg : Json)
  | replayUnavailable (msg : Json)
  | typeError
  | valueError
  | attributeError
  | jsonDecodeError

/-- First-match lookup in an association list of JSON object fields
(Python dict subscript / membership on a dict with unique keys). -/
def lookupJ : List (String × Json) → String → Option Json
  | [], _ => none
  | (k, v) :: rest, key => if k = key then some v else lookupJ rest key

/-- Python `dict.get(key)`: the stored value, or `None` when absent. -/
def pyGet (fields : List (String × Json)) (key : String) : Json :=
  (lookupJ fields key).getD Json.null

/-- Route state (`Route.__init__` in `pyosu/http.py`): base URL, path, api
key, and the query parameters in insertion order.  Parameter values are kept
in their `str(value)` form, which is all the code ever reads of them. -/
structure Route where
  base : String
  path : String
  api_key : String
  parameters : List (String × String)

/-- Python dict assignment `self.parameters[key] = value`: updates the value
in place when the key exists (keeping its position), otherwise appends. -/
def dictSet (kvs : List (String × String)) (key v : String) : List (String × String) :=
  match kvs with
  | [] => [(key, v)]
  | (k, w) :: rest =>
    if k = key then (k, v) :: rest else (k, w) :: dictSet rest key v

/-- First-match lookup in the parameter mapping. -/
def lookupP : List (String × String) → String → Option String
  | [], _ => none
  | (k, v) :: rest, key => if k = key then some v else lookupP rest key

/-- Embeds the `route` property of `Route`: builds the `k=` pair first when
the api key is non-empty, then every parameter as `name=value`, and appends
the `&`-joined query string after a `?` only when the list is non-empty. -/
def Route.route (r : Route) : String :=
  let params : List String :=
    (if r.api_key ≠ "" then ["k=" ++ r.api_key] else [])
      ++ r.parameters.map (fun p => p.1 ++ "=" ++ p.2)
  if params.length > 0 then
    r.base ++ r.path ++ "?" ++ String.intercalate "&" params
  else
    r.base ++ r.path

/-- Embeds `Route.add_param`: a `None` value returns immediately without
touching the mapping; any other value upserts. -/
def Route.add_param (r : Route) (key : String) (value : Option String) : Route :=
  match value with
  | none => r
  | some v => { r with parameters := dictSet r.parameters key v }

/-- The allow-list of `Route.check_params`. -/
def accepted_params : List String :=
  ["a", "h", "k", "m", "b", "u", "s", "mp", "limit", "type", "mods", "event_days", "since"]

/-- Loop body of `Route.check_params`: raises `InvalidArgument` at the first
stored key outside the allow-list, scanning keys in insertion order. -/
def checkKeys : List (String × String) → Except PyErr Unit
  | [] => Except.ok ()
  | (k, _) :: rest =>
    if k ∈ accepted_params then checkKeys rest else Except.error (PyErr.invalidArgument k)

/-- Embeds `Route.check_params`. -/
def Route.check_params (r : Route) : Except PyErr Unit :=
  checkKeys r.parameters

/-- Request state (`Request.__init__`): the response-format flag, the stored
(but never consumed) retry count, the owned route, and the last successfully
fetched payload `_data`. -/
structure Request where
  json_response : Bool
  retry_count : Int
  route : Route
  _data : Json

/-- Embeds `Request.__init__` with its stored fields (`_data` starts as the
empty list). -/
def Request.init (route : Route) (retry : Int) (json_response : Bool) : Request :=
  { json_response := json_response, retry_count := retry, route := route,
    _data := Json.arr [] }

/-- Embeds the read-only `data` property. -/
def Request.data (r : Request) : Json :=
  r._data

/-- One HTTP response as seen by `fetch_with_session`: the status code and
the body text.  `parsed` models the Python stdlib call `json.loads(text)`,
which is external library code: `some v` when `loads text` returns `v`,
`none` when it raises `JSONDecodeError`.  The code only calls it on
non-empty text. -/
structure Response where
  status : Nat
  text : String
  parsed : Option Json

/-- Loop of `get_json` over the path keys: `data = data[key]` inside
`try ... except KeyError: return ''`.  Subscripting a dict with a missing
key raises `KeyError`, which is caught and returns the empty string from
`get_json` at once; subscripting any non-dict value with a string key
raises `TypeError`, which nothing catches. -/
def descend : Json → List String → Except PyErr Json
  | data, [] => Except.ok data
  | Json.obj fields, key :: rest =>
    (match lookupJ fields key with
     | some v => descend v rest
     | none => Except.ok (Json.str ""))
  | _, _ :: _ => Except.error PyErr.typeError

/-- Embeds `Request.get_json`: raw text when `json_response` is false, an
empty dict for empty text, otherwise the parsed JSON, descended into along
the supplied path keys. -/
def Request.get_json (req : Request) (response : Response) (args : List String) :
    Except PyErr Json :=
  let text := response.text
  if req.json_response = false then
    Except.ok (Json.str text)
  else if text = "" then
    Except.ok (Json.obj [])
  else
    match response.parsed with
    | none => Except.error PyErr.jsonDecodeError
    | some data =>
      if args = [] then Except.ok data else descend data args

/-- Python `data.get('error') == 'Replay not available.'`: true exactly when
the value is that string. -/
def isReplayMsg : Json → Bool
  | Json.str s => s = "Replay not available."
  | _ => false

/-- Embeds `Request.fetch_with_session` as a function of the request state
and the one response the GET produced: the outcome (payload or raised
exception) paired with the request state afterwards. -/
def Request.fetch_with_session (req : Request) (response : Response) :
    Except PyErr Json × Request :=
  match req.route.check_params with
  | Except.error e => (Except.error e, req)
  | Except.ok _ =>
    if response.status = 401 then
      match req.get_json response ["error"] with
      | Except.ok msg => (Except.error (PyErr.wrongApiKey msg), req)
      | Except.error e => (Except.error e, req)
    else if response.status = 302 ∨ response.status = 404 then
      (Except.error (PyErr.routeNotFound (req.route.route ++ " was not found.")
        response.status), req)
    else if response.status ≠ 200 then
      match req.get_json response ["error"] with
      | Except.ok msg => (Except.error (PyErr.httpError response.status msg), req)
      | Except.error e => (Except.error e, req)
    else
      match req.get_json response [] with
      | Except.error e => (Except.error e, req)
      | Except.ok data =>
        match data with
        | Json.obj fields =>
          if (lookupJ fields "error").isSome then
            if isReplayMsg (pyGet fields "error") then
              (Except.error (PyErr.replayUnavailable (pyGet fields "error")), req)
            else
              (Except.error (PyErr.httpError 400 (pyGet fields "error")), req)
          else
            (Except.ok (Json.obj fields), { req with _data := Json.obj fields })
        | other => (Except.ok other, { req with _data := other })

/-- Case-insensitive literal match: when the pattern is a case-insensitive
prefix of the text, the rest of the text.  The regex of `parse_version` is
compiled with `re.IGNORECASE`, whose case folding is Unicode-aware (for
example U+017F folds to `s`); this definition folds with `Char.toLower`,
which agrees with Python's folding exactly when every text character is
ASCII (the pattern here is all-lowercase ASCII), so the `parse_version`
theorems quantify only over ASCII content, where the model is exact. -/
def matchCI : List Char → List Char → Option (List Char)
  | [], rest => some rest
  | _ :: _, [] => none
  | p :: ps, t :: ts => if p.toLower = t.toLower then matchCI ps ts else none

/-- Leftmost case-insensitive occurrence of the pattern (Python `re.search`
returns the leftmost match): the text remaining after the matched phrase.
Built on `matchCI`, so exact on ASCII text, the domain the `parse_version`
theorems quantify over. -/
def searchCI (pat : List Char) : List Char → Option (List Char)
  | [] => matchCI pat []
  | t :: ts =>
    match matchCI pat (t :: ts) with
    | some rest => some rest
    | none => searchCI pat ts

/-- The literal part of the regex `osu file format v(\d*)`. -/
def versionPhrase : List Char := "osu file format v".toList

/-- Value of a non-empty string of the digits `0`..`9`, as `int()` computes
it on such a string. -/
def digitsToNat (ds : List Char) : Nat :=
  ds.foldl (fun acc c => acc * 10 + (c.toNat - 48)) 0

/-- Embeds `BeatmapFile.parse_version` applied to the stored `content`
(which `BeatmapFile.__init__` sets to `data.get('content', '')` before
calling it): `re.search` for the leftmost case-insensitive occurrence of the
phrase — when there is none, `matches.group(1)` on `None` raises
`AttributeError`; otherwise the greedy `(\d*)` group is the maximal digit
run after the phrase, and `int` of it raises `ValueError` when it is empty.
Python's `\d` and `int()` accept any Unicode decimal digit (category Nd,
for example U+0667), while this model uses `Char.isDigit` (`0`..`9`); on
ASCII content the two coincide, so the `parse_version` theorems quantify
only over ASCII content, where the model is exact. -/
def parse_version (content : String) : Except PyErr Nat :=
  match searchCI versionPhrase content.toList with
  | none => Except.error PyErr.attributeError
  | some rest =>
    let digits := rest.takeWhile Char.isDigit
    if digits = [] then Except.error PyErr.valueError
    else Except.ok (digitsToNat digits)

/-- Whether the pattern matches at the head of the text and is followed by at
least one digit. -/
def versionAtHead (pat : List Char) (text : List Char) : Bool :=
  match matchCI pat text with
  | some (d :: _) => d.isDigit
  | _ => false

/-- Loop, over the suffixes of the text, of `contains_version_string`. -/
def containsVersionChars (pat : List Char) : List Char → Bool
  | [] => versionAtHead pat []
  | t :: ts => versionAtHead pat (t :: ts) || containsVersionChars pat ts

/-- The property named by the claim about `parse_version`: the content has a
substring matching `osu file format v` (case-insensitively) followed by at
least one digit.  Like the code model it is exact on ASCII content (see
`matchCI` and `parse_version` on Python's Unicode-aware folding and `\d`). -/
def contains_version_string (content : String) : Bool :=
  containsVersionChars versionPhrase content.toList

/-- Whether every character of the string is ASCII: the domain on which the
`matchCI`/`searchCI`/`Char.isDigit` model of `re.IGNORECASE`, `\d` and
`int()` coincides with Python's Unicode-aware behaviour (no non-ASCII
character is involved, ASCII characters case-fold within ASCII, and `\d` on
ASCII is exactly `0`..`9`). -/
def isAsciiOnly (content : String) : Bool :=
  content.toList.all (fun c => c.toNat < 128)

/-! Spec-side definitions, written from the specification's words, to be
compared with the embedded code. -/

/-- Written from the spec's words for the `route` property: `base + path`
with no `?` at all when the api key is empty and there are no parameters;
otherwise `base + path` followed by `?` and an `&`-joined list made of
`k=<api_key>` first (when the key is non-empty) and then each parameter as
`name=value` in insertion order, values verbatim. -/
def route_spec (r : Route) : String :=
  if r.api_key = "" ∧ r.parameters = [] then
    r.base ++ r.path
  else
    r.base ++ r.path ++ "?" ++ String.intercalate "&"
      ((if r.api_key ≠ "" then ["k=" ++ r.api_key] else [])
        ++ r.parameters.map (fun p => p.1 ++ "=" ++ p.2))

/-- Total path lookup: the value at the end of the key path when every key
is present (descending only through objects), `none` otherwise. -/
def pathGet : Json → List String → Option Json
  | data, [] => some data
  | Json.obj fields, key :: rest =>
    (match lookupJ fields key with
     | some v => pathGet v rest
     | none => none)
  | _, _ :: _ => none

/-- The descent stops at an object that lacks the next key (the case Python
raises `KeyError` on, which `get_json` catches). -/
def missesObjKey : Json → List String → Bool
  | _, [] => false
  | Json.obj fields, key :: rest =>
    (match lookupJ fields key with
     | some v => missesObjKey v rest
     | none => true)
  | _, _ :: _ => false

/-- The descent reaches a non-object value while keys remain (the case
Python raises an uncaught `TypeError` on). -/
def hitsNonObj : Json → List String → Bool
  | _, [] => false
  | Json.obj fields, key :: rest =>
    (match lookupJ fields key with
     | some v => hitsNonObj v rest
     | none => false)
  | _, _ :: _ => true

/-! Concrete states used to instantiate the theorems. -/

/-- A route with no api key and no parameters. -/
def sampleRoute : Route :=
  { base := "https://osu.ppy.sh/api/", path := "get_user", api_key := "", parameters := [] }

/-- A JSON-mode request over `sampleRoute` with the default retry count. -/
def sampleReq : Request :=
  Request.init sampleRoute 5 true

/-- The route of the spec's concrete example: api key `abc`, parameters
`a=1` then `h=2`. -/
def abcRoute : Route :=
  { base := "https://osu.ppy.sh/api/", path := "get_user", api_key := "abc",
    parameters := [("a", "1"), ("h", "2")] }

/-- A route whose parameter keys are all in the allow-list. -/
def goodRoute : Route :=
  { base := "https://osu.ppy.sh/api/", path := "get_user", api_key := "",
    parameters := [("u", "peppy"), ("limit", "3")] }

/-- A route with a parameter key outside the allow-list. -/
def badRoute : Route :=
  { base := "https://osu.ppy.sh/api/", path := "get_user", api_key := "",
    parameters := [("zz", "1")] }

/-! Helper lemmas. -/

theorem descend_of_pathGet :
    ∀ (keys : List String) (d v : Json), pathGet d keys = some v →
      descend d keys = Except.ok v := by
  intro keys
  induction keys with
  | nil =>
    intro d v h
    simp [pathGet] at h
    simp [descend, h]
  | cons key rest ih =>
    intro d v h
    cases d with
    | obj fields =>
      simp only [pathGet] at h
      simp only [descend]
      cases hl : lookupJ fields key with
      | none => rw [hl] at h; simp at h
      | some w => rw [hl] at h; exact ih w v h
    | null => simp [pathGet] at h
    | bool b => simp [pathGet] at h
    | num n => simp [pathGet] at h
    | str s => simp [pathGet] at h
    | arr es => simp [pathGet] at h

theorem descend_of_missesObjKey :
    ∀ (keys : List String) (d : Json), missesObjKey d keys = true →
      descend d keys = Except.ok (Json.str "") := by
  intro keys
  induction keys with
  | nil => intro d h; simp [missesObjKey] at h
  | cons key rest ih =>
    intro d h
    cases d with
    | obj fields =>
      simp only [missesObjKey] at h
      simp only [descend]
      cases hl : lookupJ fields key with
      | none => simp
      | some w => rw [hl] at h; exact ih w h
    | null => simp [missesObjKey] at h
    | bool b => simp [missesObjKey] at h
    | num n => simp [missesObjKey] at h
    | str s => simp [missesObjKey] at h
    | arr es => simp [missesObjKey] at h

theorem descend_of_hitsNonObj :
    ∀ (keys : List String) (d : Json), hitsNonObj d keys = true →
      descend d keys = Except.error PyErr.typeError := by
  intro keys
  induction keys with
  | nil => intro d h; simp [hitsNonObj] at h
  | cons key rest ih =>
    intro d h
    cases d with
    | obj fields =>
      simp only [hitsNonObj] at h
      simp only [descend]
      cases hl : lookupJ fields key with
      | none => rw [hl] at h; simp at h
      | some w => rw [hl] at h; exact ih w h
    | null => simp [descend]
    | bool b => simp [descend]
    | num n => simp [descend]
    | str s => simp [descend]
    | arr es => simp [descend]

theorem get_json_eq_descend (req : Request) (resp : Response) (d : Json)
    (keys : List String) (hjson : req.json_response = true)
    (htext : resp.text ≠ "") (hparsed : resp.parsed = some d)
    (hkeys : keys ≠ []) :
    req.get_json resp keys = descend d keys := by
  simp only [Request.get_json, hjson, hparsed]
  simp [htext, hkeys]

theorem checkKeys_ok_iff :
    ∀ kvs : List (String × String),
      checkKeys kvs = Except.ok () ↔ ∀ k ∈ kvs.map Prod.fst, k ∈ accepted_params := by
  intro kvs
  induction kvs with
  | nil => simp [checkKeys]
  | cons p rest ih =>
    obtain ⟨k, v⟩ := p
    by_cases hk : k ∈ accepted_params
    · simp [checkKeys, hk, ih]
    · simp [checkKeys, hk]

theorem checkKeys_error :
    ∀ (kvs : List (String × String)) (e : PyErr), checkKeys kvs = Except.error e →
      ∃ k, e = PyErr.invalidArgument k ∧ k ∈ kvs.map Prod.fst ∧ k ∉ accepted_params := by
  intro kvs
  induction kvs with
  | nil => intro e h; simp [checkKeys] at h
  | cons p rest ih =>
    obtain ⟨k, v⟩ := p
    intro e h
    by_cases hk : k ∈ accepted_params
    · simp only [checkKeys, if_pos hk] at h
      obtain ⟨k2, he, hmem, hout⟩ := ih e h
      exact ⟨k2, he, by simp [hmem], hout⟩
    · simp only [checkKeys, if_neg hk] at h
      injection h with h2
      exact ⟨k, h2.symm, by simp, hk⟩

theorem lookupP_dictSet_self :
    ∀ (kvs : List (String × String)) (key v : String),
      lookupP (dictSet kvs key v) key = some v := by
  intro kvs
  induction kvs with
  | nil => intro key v; simp [dictSet, lookupP]
  | cons p rest ih =>
    obtain ⟨k, w⟩ := p
    intro key v
    by_cases hk : k = key
    · subst hk
      simp [dictSet, lookupP]
    · simp [dictSet, hk, lookupP, ih]

theorem lookupP_dictSet_other :
    ∀ (kvs : List (String × String)) (key v k2 : String), k2 ≠ key →
      lookupP (dictSet kvs key v) k2 = lookupP kvs k2 := by
  intro kvs
  induction kvs with
  | nil =>
    intro key v k2 h
    have hne : ¬key = k2 := fun hh => h hh.symm
    simp [dictSet, lookupP, hne]
  | cons p rest ih =>
    obtain ⟨k, w⟩ := p
    intro key v k2 h
    by_cases hk : k = key
    · subst hk
      have hne : ¬k = k2 := fun hh => h hh.symm
      simp [dictSet, lookupP, hne]
    · simp only [dictSet, if_neg hk, lookupP]
      by_cases h2 : k = k2
      · simp [h2]
      · simp [h2, ih key v k2 h]

theorem fetch_cases (req : Request) (resp : Response) :
    (∃ e, req.fetch_with_session resp = (Except.error e, req)) ∨
      (∃ d, req.fetch_with_session resp = (Except.ok d, { req with _data := d })) := by
  unfold Request.fetch_with_session
  repeat' split
  all_goals first
    | exact Or.inl ⟨_, rfl⟩
    | exact Or.inr ⟨_, rfl⟩

/-! Claim theorems. -/

/-- Claim C3: the derived `route` string is `base + path` with no `?` when the
api key is empty and the parameter mapping is empty, and otherwise is
`base + path` followed by `?` and the `&`-joined query pairs, api key first
as `k=<api_key>` when non-empty, then each parameter as `name=value` in
insertion order, values verbatim (proved as equality with `route_spec`,
written from the spec's words), together with the spec's concrete example. -/
theorem route_matches_spec :
    (∀ r : Route, r.route = route_spec r)
    ∧ abcRoute.route = "https://osu.ppy.sh/api/get_user?k=abc&a=1&h=2"
    ∧ sampleRoute.route = "https://osu.ppy.sh/api/get_user" := by
  constructor
  · intro r
    unfold Route.route route_spec
    by_cases hk : r.api_key = ""
    · by_cases hp : r.parameters = []
      · simp [hk, hp]
      · simp [hk, hp, List.length_pos]
    · simp [hk]
  · exact ⟨rfl, rfl⟩

/-- Claim C4: `check_params` succeeds exactly when every stored key is in the
allow-list; any failure is an `InvalidArgument` carrying a stored key that is
outside the allow-list; and the presence of any key outside the allow-list
forces such a failure. -/
theorem check_params_allowlist (r : Route) :
    (r.check_params = Except.ok () ↔ ∀ k ∈ r.parameters.map Prod.fst, k ∈ accepted_params)
    ∧ (∀ e, r.check_params = Except.error e →
        ∃ k, e = PyErr.invalidArgument k ∧ k ∈ r.parameters.map Prod.fst
          ∧ k ∉ accepted_params)
    ∧ (∀ k, k ∈ r.parameters.map Prod.fst → k ∉ accepted_params →
        ∃ k2, r.check_params = Except.error (PyErr.invalidArgument k2)) := by
  refine ⟨checkKeys_ok_iff r.parameters, fun e h => checkKeys_error r.parameters e h, ?_⟩
  intro k hmem hout
  cases hc : r.check_params with
  | ok u =>
    cases u
    exact absurd ((checkKeys_ok_iff r.parameters).mp hc k hmem) hout
  | error e =>
    obtain ⟨k2, he, _, _⟩ := checkKeys_error r.parameters e hc
    exact ⟨k2, by rw [he]⟩

/-- Witness for C4 at concrete parameter mappings. -/
theorem check_params_allowlist_witness :
    goodRoute.check_params = Except.ok ()
    ∧ ∃ k2, badRoute.check_params = Except.error (PyErr.invalidArgument k2) :=
  ⟨(check_params_allowlist _).1.mpr (by decide),
   (check_params_allowlist _).2.2 "zz" (by decide) (by decide)⟩

/-- Claim C7: with `json_response` false, `get_json` returns the raw response
text unchanged, for every body and every list of path keys. -/
theorem get_json_raw_text (req : Request) (resp : Response) (args : List String)
    (h : req.json_response = false) :
    req.get_json resp args = Except.ok (Json.str resp.text) := by
  simp [Request.get_json, h]

/-- Witness for C7: raw mode hands back text that is itself valid JSON,
unparsed, even with a path key supplied. -/
theorem get_json_raw_text_witness :
    Request.get_json (Request.init sampleRoute 5 false)
      { status := 200, text := "[1]", parsed := some (Json.arr [Json.num 1]) } ["error"]
      = Except.ok (Json.str "[1]") :=
  get_json_raw_text _ _ _ rfl

/-- Claim C8: `add_param` with a `None` value is a no-op on the whole route
state, while `add_param` with a present value upserts: the key now maps to
the value, every other key is unchanged, and the non-parameter fields are
untouched. -/
theorem add_param_upsert (r : Route) (key : String) :
    (r.add_param key none = r)
    ∧ (∀ v, lookupP (r.add_param key (some v)).parameters key = some v)
    ∧ (∀ v k2, k2 ≠ key →
        lookupP (r.add_param key (some v)).parameters k2 = lookupP r.parameters k2)
    ∧ (∀ v, (r.add_param key (some v)).base = r.base
        ∧ (r.add_param key (some v)).path = r.path
        ∧ (r.add_param key (some v)).api_key = r.api_key) := by
  refine ⟨rfl, fun v => ?_, fun v k2 h => ?_, fun v => ⟨rfl, rfl, rfl⟩⟩
  · exact lookupP_dictSet_self r.parameters key v
  · exact lookupP_dictSet_other r.parameters key v k2 h

/-- Witness for C8 at a concrete route and keys. -/
theorem add_param_upsert_witness :
    (Route.add_param sampleRoute "u" none = sampleRoute)
    ∧ lookupP (Route.add_param sampleRoute "u" (some "peppy")).parameters "u" = some "peppy"
    ∧ lookupP (Route.add_param sampleRoute "u" (some "peppy")).parameters "limit"
        = lookupP sampleRoute.parameters "limit" :=
  ⟨(add_param_upsert sampleRoute "u").1,
   (add_param_upsert sampleRoute "u").2.1 "peppy",
   (add_param_upsert sampleRoute "u").2.2.1 "peppy" "limit" (by decide)⟩

/-- Counterexample to C5 as stated: against body `{"a": 5}` with path keys
`("a","b")` the key `b` is missing at the second level, yet `get_json` does
not return `""` — subscripting the non-dict value `5` raises an uncaught
`TypeError` (only `KeyError` is caught), modelled as `Except.error`. -/
theorem get_json_missing_key_cex :
    (Request.init sampleRoute 5 true).json_response = true
    ∧ ("\x7b\x22a\x22: 5\x7d" : String) ≠ ""
    ∧ (["a", "b"] : List String) ≠ []
    ∧ Request.get_json (Request.init sampleRoute 5 true)
        { status := 200, text := "\x7b\x22a\x22: 5\x7d",
          parsed := some (Json.obj [("a", Json.num 5)]) } ["a", "b"]
        = Except.error PyErr.typeError :=
  ⟨rfl, by decide, by decide, rfl⟩

/-- Claim C5 as amended: with `json_response` true, non-empty body text and
a non-empty key path, `get_json` parses the body and descends key by key;
when every key is present it returns the value at the end of the path; when
the descent reaches a mapping that lacks the next key it returns `""`
immediately; but when the descent reaches a non-mapping value while keys
remain it raises `TypeError` (only `KeyError` is caught), so it is not
exception-free for every body. -/
theorem get_json_path_descent (req : Request) (resp : Response) (d : Json)
    (keys : List String) (hjson : req.json_response = true)
    (htext : resp.text ≠ "") (hparsed : resp.parsed = some d)
    (hkeys : keys ≠ []) :
    (∀ v, pathGet d keys = some v → req.get_json resp keys = Except.ok v)
    ∧ (missesObjKey d keys = true → req.get_json resp keys = Except.ok (Json.str ""))
    ∧ (hitsNonObj d keys = true → req.get_json resp keys = Except.error PyErr.typeError) := by
  have hd := get_json_eq_descend req resp d keys hjson htext hparsed hkeys
  exact ⟨fun v hv => hd.trans (descend_of_pathGet keys d v hv),
    fun h => hd.trans (descend_of_missesObjKey keys d h),
    fun h => hd.trans (descend_of_hitsNonObj keys d h)⟩

/-- Witness for C5 as amended: the spec's two examples, `{"a":{"b":5}}`
yielding `5` and `{"a":{}}` yielding `""`. -/
theorem get_json_path_descent_witness :
    Request.get_json (Request.init sampleRoute 5 true)
      { status := 200, text := "\x7b\x22a\x22: \x7b\x22b\x22: 5\x7d\x7d",
        parsed := some (Json.obj [("a", Json.obj [("b", Json.num 5)])]) } ["a", "b"]
      = Except.ok (Json.num 5)
    ∧ Request.get_json (Request.init sampleRoute 5 true)
      { status := 200, text := "\x7b\x22a\x22: \x7b\x7d\x7d",
        parsed := some (Json.obj [("a", Json.obj [])]) } ["a", "b"]
      = Except.ok (Json.str "") :=
  ⟨(get_json_path_descent (Request.init sampleRoute 5 true) _
      (Json.obj [("a", Json.obj [("b", Json.num 5)])]) ["a", "b"]
      rfl (by decide) rfl (by decide)).1 (Json.num 5) rfl,
   (get_json_path_descent (Request.init sampleRoute 5 true) _
      (Json.obj [("a", Json.obj [])]) ["a", "b"]
      rfl (by decide) rfl (by decide)).2.1 rfl⟩

/-- Counterexample to C1 as stated: a 401 response whose JSON body is the
array `[]` does not make `fetch_with_session` raise `WrongApiKey` — the
error-field extraction subscripts a list with a string key, raising an
uncaught `TypeError`. -/
theorem fetch_401_array_cex :
    Request.fetch_with_session (Request.init sampleRoute 5 true)
      { status := 401, text := "[]", parsed := some (Json.arr []) }
      = (Except.error PyErr.typeError, Request.init sampleRoute 5 true) :=
  rfl

/-- Claim C1 as amended: after parameter validation succeeds, a 401 raises
`WrongApiKey` carrying the extracted `error` field whenever that extraction
succeeds, and propagates the extraction's own exception otherwise; a 302 or
404 always raises `RouteNotFound` carrying the attempted URL and the status;
and any other non-200 status raises `HTTPError` carrying the status and the
extracted `error` field under the same extraction proviso. -/
theorem fetch_status_branches (req : Request) (resp : Response)
    (hck : req.route.check_params = Except.ok ()) :
    (resp.status = 401 → ∀ m, req.get_json resp ["error"] = Except.ok m →
      req.fetch_with_session resp = (Except.error (PyErr.wrongApiKey m), req))
    ∧ (resp.status = 401 → ∀ e, req.get_json resp ["error"] = Except.error e →
      req.fetch_with_session resp = (Except.error e, req))
    ∧ (resp.status = 302 ∨ resp.status = 404 →
      req.fetch_with_session resp
        = (Except.error (PyErr.routeNotFound (req.route.route ++ " was not found.")
            resp.status), req))
    ∧ (resp.status ≠ 401 → resp.status ≠ 302 → resp.status ≠ 404 → resp.status ≠ 200 →
      ∀ m, req.get_json resp ["error"] = Except.ok m →
      req.fetch_with_session resp = (Except.error (PyErr.httpError resp.status m), req))
    ∧ (resp.status ≠ 401 → resp.status ≠ 302 → resp.status ≠ 404 → resp.status ≠ 200 →
      ∀ e, req.get_json resp ["error"] = Except.error e →
      req.fetch_with_session resp = (Except.error e, req)) := by
  refine ⟨?_, ?_, ?_, ?_, ?_⟩
  · intro hs m hm
    simp [Request.fetch_with_session, hck, hs, hm]
  · intro hs e he
    simp [Request.fetch_with_session, hck, hs, he]
  · intro hs
    rcases hs with hs | hs <;> simp [Request.fetch_with_session, hck, hs]
  · intro h1 h2 h3 h4 m hm
    simp [Request.fetch_with_session, hck, h1, h2, h3, h4, hm]
  · intro h1 h2 h3 h4 e he
    simp [Request.fetch_with_session, hck, h1, h2, h3, h4, he]

/-- Witness for C1 as amended: a 401 with body `{"error":"bad key"}` raises
`WrongApiKey "bad key"`, and a 404 raises `RouteNotFound` with the URL and
status. -/
theorem fetch_status_branches_witness :
    Request.fetch_with_session (Request.init sampleRoute 5 true)
      { status := 401, text := "\x7b\x22error\x22: \x22bad key\x22\x7d",
        parsed := some (Json.obj [("error", Json.str "bad key")]) }
      = (Except.error (PyErr.wrongApiKey (Json.str "bad key")),
          Request.init sampleRoute 5 true)
    ∧ Request.fetch_with_session (Request.init sampleRoute 5 true)
      { status := 404, text := "", parsed := none }
      = (Except.error (PyErr.routeNotFound
          "https://osu.ppy.sh/api/get_user was not found." 404),
          Request.init sampleRoute 5 true) :=
  ⟨(fetch_status_branches (Request.init sampleRoute 5 true) _ rfl).1 rfl
      (Json.str "bad key") rfl,
   (fetch_status_branches (Request.init sampleRoute 5 true) _ rfl).2.2.1 (Or.inr rfl)⟩

/-- Claim C2: when a 200 response's parsed JSON result is a mapping that
contains an `error` key, `fetch_with_session` raises `ReplayUnavailable`
carrying the message when the error value equals the literal string
`Replay not available.`, and otherwise raises `HTTPError` with status 400
and that message; in both cases the request state (and so its stored
`data`) is unchanged. -/
theorem fetch_200_error_body (req : Request) (resp : Response)
    (fields : List (String × Json))
    (hck : req.route.check_params = Except.ok ()) (hs : resp.status = 200)
    (hg : req.get_json resp [] = Except.ok (Json.obj fields))
    (he : (lookupJ fields "error").isSome = true) :
    (isReplayMsg (pyGet fields "error") = true →
      req.fetch_with_session resp
        = (Except.error (PyErr.replayUnavailable (pyGet fields "error")), req))
    ∧ (isReplayMsg (pyGet fields "error") = false →
      req.fetch_with_session resp
        = (Except.error (PyErr.httpError 400 (pyGet fields "error")), req))
    ∧ (req.fetch_with_session resp).2 = req := by
  have h1 : isReplayMsg (pyGet fields "error") = true →
      req.fetch_with_session resp
        = (Except.error (PyErr.replayUnavailable (pyGet fields "error")), req) := by
    intro hrep
    simp [Request.fetch_with_session, hck, hs, hg, he, hrep]
  have h2 : isReplayMsg (pyGet fields "error") = false →
      req.fetch_with_session resp
        = (Except.error (PyErr.httpError 400 (pyGet fields "error")), req) := by
    intro hrep
    simp [Request.fetch_with_session, hck, hs, hg, he, hrep]
  refine ⟨h1, h2, ?_⟩
  cases hrep : isReplayMsg (pyGet fields "error") with
  | false => rw [h2 hrep]
  | true => rw [h1 hrep]

/-- Witness for C2: the spec's two bodies, `{"error":"Replay not
available."}` and `{"error":"something else"}`, on a 200 response. -/
theorem fetch_200_error_body_witness :
    Request.fetch_with_session (Request.init sampleRoute 5 true)
      { status := 200, text := "\x7b\x22error\x22: \x22Replay not available.\x22\x7d",
        parsed := some (Json.obj [("error", Json.str "Replay not available.")]) }
      = (Except.error (PyErr.replayUnavailable (Json.str "Replay not available.")),
          Request.init sampleRoute 5 true)
    ∧ Request.fetch_with_session (Request.init sampleRoute 5 true)
      { status := 200, text := "\x7b\x22error\x22: \x22something else\x22\x7d",
        parsed := some (Json.obj [("error", Json.str "something else")]) }
      = (Except.error (PyErr.httpError 400 (Json.str "something else")),
          Request.init sampleRoute 5 true) :=
  ⟨(fetch_200_error_body (Request.init sampleRoute 5 true)
      { status := 200, text := "\x7b\x22error\x22: \x22Replay not available.\x22\x7d",
        parsed := some (Json.obj [("error", Json.str "Replay not available.")]) }
      [("error", Json.str "Replay not available.")] rfl rfl rfl rfl).1 rfl,
   (fetch_200_error_body (Request.init sampleRoute 5 true)
      { status := 200, text := "\x7b\x22error\x22: \x22something else\x22\x7d",
        parsed := some (Json.obj [("error", Json.str "something else")]) }
      [("error", Json.str "something else")] rfl rfl rfl rfl).2.1 rfl⟩

/-- Claim C6: the stored `data` field is the last successfully fetched
payload: `data` is a read-only view of `_data`, it is initially the empty
list, a successful `fetch_with_session` stores exactly the returned value
(changing nothing else), and every failing outcome leaves the request state
unchanged. -/
theorem data_stores_last_success :
    (∀ (route : Route) (retry : Int) (b : Bool),
      (Request.init route retry b).data = Json.arr [])
    ∧ (∀ req : Request, req.data = req._data)
    ∧ (∀ (req : Request) (resp : Response) (d : Json),
        (req.fetch_with_session resp).1 = Except.ok d →
        (req.fetch_with_session resp).2 = { req with _data := d })
    ∧ (∀ (req : Request) (resp : Response) (e : PyErr),
        (req.fetch_with_session resp).1 = Except.error e →
        (req.fetch_with_session resp).2 = req) := by
  refine ⟨fun _ _ _ => rfl, fun _ => rfl, ?_, ?_⟩
  · intro req resp d h
    rcases fetch_cases req resp with ⟨e, he⟩ | ⟨d2, hd⟩
    · rw [he] at h
      exact absurd h (by simp)
    · rw [hd] at h
      simp only [] at h
      injection h with h2
      subst h2
      rw [hd]
  · intro req resp e h
    rcases fetch_cases req resp with ⟨e2, he⟩ | ⟨d2, hd⟩
    · rw [he]
    · rw [hd] at h
      exact absurd h (by simp)

/-- Witness for C6: a 200 response with body `[{"id":1}]` is returned and
stored as the request's data. -/
theorem data_stores_last_success_witness :
    (Request.fetch_with_session (Request.init sampleRoute 5 true)
      { status := 200, text := "[\x7b\x22id\x22: 1\x7d]",
        parsed := some (Json.arr [Json.obj [("id", Json.num 1)]]) }).2
      = { Request.init sampleRoute 5 true with
          _data := Json.arr [Json.obj [("id", Json.num 1)]] } :=
  data_stores_last_success.2.2.1 (Request.init sampleRoute 5 true)
    { status := 200, text := "[\x7b\x22id\x22: 1\x7d]",
      parsed := some (Json.arr [Json.obj [("id", Json.num 1)]]) }
    (Json.arr [Json.obj [("id", Json.num 1)]]) rfl

/-- Claim C9: `retry_count` is inert — two requests identical except for
their retry count produce, on the same response, the same outcome and the
same resulting state up to the stored retry count; each call consumes
exactly one response by construction, so there is no retry loop. -/
theorem retry_count_inert (b : Bool) (m n : Int) (route : Route) (d : Json)
    (resp : Response) :
    (Request.fetch_with_session ⟨b, m, route, d⟩ resp).1
      = (Request.fetch_with_session ⟨b, n, route, d⟩ resp).1
    ∧ (Request.fetch_with_session ⟨b, m, route, d⟩ resp).2
      = { (Request.fetch_with_session ⟨b, n, route, d⟩ resp).2 with retry_count := m } := by
  have hg : ∀ args, Request.get_json ⟨b, m, route, d⟩ resp args
      = Request.get_json ⟨b, n, route, d⟩ resp args := fun _ => rfl
  refine ⟨?_, ?_⟩ <;>
    · simp only [Request.fetch_with_session, hg]
      repeat' split
      all_goals rfl

theorem searchCI_no_digit (pat : List Char) :
    ∀ (text rest : List Char), containsVersionChars pat text = false →
      searchCI pat text = some rest → rest.takeWhile Char.isDigit = [] := by
  intro text
  induction text with
  | nil =>
    intro rest hc hs
    simp only [containsVersionChars, versionAtHead] at hc
    simp only [searchCI] at hs
    rw [hs] at hc
    cases rest with
    | nil => rfl
    | cons d ds =>
      simp only [] at hc
      simp [List.takeWhile_cons, hc]
  | cons t ts ih =>
    intro rest hc hs
    simp only [containsVersionChars, Bool.or_eq_false_iff] at hc
    obtain ⟨hc1, hc2⟩ := hc
    simp only [searchCI] at hs
    cases hm : matchCI pat (t :: ts) with
    | some r2 =>
      rw [hm] at hs
      simp only [Option.some.injEq] at hs
      rw [hs] at hm
      simp only [versionAtHead, hm] at hc1
      cases rest with
      | nil => rfl
      | cons d ds =>
        simp only [] at hc1
        simp [List.takeWhile_cons, hc1]
    | none =>
      rw [hm] at hs
      exact ih rest hc2 hs

/-- Counterexample to C10 as stated: the all-ASCII content
`osu file format vx osu file format v7` (so the embedding is exact on it)
does contain a substring matching the phrase followed by a digit (its
second occurrence, `...v7`), yet `parse_version` does not return `7` —
`re.search` matches the leftmost occurrence, whose `(\d*)` group is empty,
and `int('')` raises `ValueError`. -/
theorem parse_version_cex :
    isAsciiOnly "osu file format vx osu file format v7" = true
    ∧ contains_version_string "osu file format vx osu file format v7" = true
    ∧ parse_version "osu file format vx osu file format v7"
        = Except.error PyErr.valueError :=
  ⟨rfl, rfl, rfl⟩

/-- Claim C10 as amended: for every content string of ASCII characters (the
domain where this model of Python's Unicode-aware `re.IGNORECASE`, `\d` and
`int()` is exact — see `matchCI` and `parse_version`): when the content has
no substring matching `osu file format v` (case-insensitively) followed by
at least one digit, `parse_version` raises (so `BeatmapFile` construction
fails, including on the default empty content); when the phrase does not
occur at all it raises `AttributeError`; and the returned version is
determined by the leftmost occurrence of the phrase: an empty digit run
there raises `ValueError` even if a later occurrence is followed by digits,
and a non-empty digit run there is returned parsed as an integer. -/
theorem parse_version_leftmost (content : String)
    (_ha : isAsciiOnly content = true) :
    (contains_version_string content = false →
      ∃ e, parse_version content = Except.error e)
    ∧ (searchCI versionPhrase content.toList = none →
      parse_version content = Except.error PyErr.attributeError)
    ∧ (∀ rest, searchCI versionPhrase content.toList = some rest →
        (rest.takeWhile Char.isDigit = [] →
          parse_version content = Except.error PyErr.valueError)
        ∧ (∀ d ds, rest.takeWhile Char.isDigit = d :: ds →
          parse_version content = Except.ok (digitsToNat (d :: ds)))) := by
  refine ⟨?_, ?_, ?_⟩
  · intro hc
    cases hs : searchCI versionPhrase content.toList with
    | none =>
      refine ⟨PyErr.attributeError, ?_⟩
      unfold parse_version
      rw [hs]
    | some rest =>
      have hd := searchCI_no_digit versionPhrase content.toList rest hc hs
      refine ⟨PyErr.valueError, ?_⟩
      unfold parse_version
      rw [hs]
      simp [hd]
  · intro hs
    unfold parse_version
    rw [hs]
  · intro rest hs
    constructor
    · intro hd
      unfold parse_version
      rw [hs]
      simp [hd]
    · intro d ds hd
      unfold parse_version
      rw [hs]
      simp [hd]

/-- Witness for C10 as amended, at ASCII contents: the default empty
content raises, and a content whose leftmost (case-insensitive) phrase
occurrence is followed by digits yields those digits as the version. -/
theorem parse_version_leftmost_witness :
    (∃ e, parse_version "" = Except.error e)
    ∧ parse_version "xOSU File Format V14abc" = Except.ok 14 :=
  ⟨(parse_version_leftmost "" (by decide)).1 (by decide),
   (parse_version_leftmost "xOSU File Format V14abc" (by decide)).2.2
      "14abc".toList (by decide) |>.2 '1' ['4'] (by decide)⟩

end Pyosu
